import Mathlib

/-!
Shallow embedding of the core matching and risk-aggregation logic of the
food-allergen-scanner repository, together with theorems settling the
frozen claims about it.

Embedded components (each definition is a direct translation of the named
Python function):
* `parseIngredients`   — `IngredientAnalyzer._parse_ingredients`
* `detectHiddenAllergens` — `IngredientAnalyzer._detect_hidden_allergens`
* `checkAllergens`     — `AllergyChecker.check_allergens` (+ its helpers)
* `checkInteractions`  — `MedicationChecker.check_interactions` (+ helpers)
* `addAllergy`         — `UserProfile.add_allergy`

Python strings are modelled as Lean `String` (lists of characters); Python
regular-expression substitutions used by the parser are implemented as
explicit left-to-right scan-and-delete passes with the exact semantics of
`re.sub` for the six concrete patterns appearing in the source.
-/

/-! ## Python string primitives -/

/-- Characters stripped by Python `str.strip()` / matched by `\s` (ASCII). -/
def isPySpace (c : Char) : Bool :=
  c == ' ' || c == '\t' || c == '\n' || c == '\r' || c == '\x0b' || c == '\x0c'

/-- Word characters for the regex `\b` boundary (`[a-zA-Z0-9_]`). -/
def isWordChar (c : Char) : Bool :=
  c.isAlpha || c.isDigit || c == '_'

/-- Python `str.lower()` (ASCII case mapping, as used on this repo's data). -/
def pyLower (s : String) : String :=
  String.mk (s.data.map Char.toLower)

def stripList (l : List Char) : List Char :=
  ((l.dropWhile isPySpace).reverse.dropWhile isPySpace).reverse

/-- Python `str.strip()`. -/
def pyStrip (s : String) : String :=
  String.mk (stripList s.data)

/-- Python `str.rstrip(chars)` for an explicit character set. -/
def pyRstrip (s : String) (cset : List Char) : String :=
  String.mk ((s.data.reverse.dropWhile (fun c => cset.contains c)).reverse)

def litHasPre : List Char → List Char → Bool
  | [], _ => true
  | _ :: _, [] => false
  | p :: ps, c :: cs => (p == c) && litHasPre ps cs

def strSubAux (p : List Char) : List Char → Bool
  | [] => litHasPre p []
  | c :: cs => litHasPre p (c :: cs) || strSubAux p cs

/-- Python substring test `a in b` on strings. -/
def pyIn (a b : String) : Bool :=
  strSubAux a.data b.data

/-- Number of leading characters satisfying `p`. -/
def countLeading (p : Char → Bool) : List Char → Nat
  | [] => 0
  | c :: cs => if p c then countLeading p cs + 1 else 0

/-- Case-insensitive literal prefix test (the literal is given lower-case),
for patterns compiled with `re.IGNORECASE`. -/
def litHasPreCI : List Char → List Char → Bool
  | [], _ => true
  | _ :: _, [] => false
  | p :: ps, c :: cs => (Char.toLower c == p) && litHasPreCI ps cs

/-! ## The parser's six `re.sub` passes

`_parse_ingredients` removes, in this order, the patterns
`\b\d+\.?\d*%`, `\([^)]*\)`, `\[[^\]]*\]`, `E\d{3,4}`,
`(preservative|antioxidant|emulsifier|stabilizer):\s*`,
`(may contain|contains|produced in facility)`, each with `re.IGNORECASE`.
Each matcher below reports the length of the (non-empty) match starting at
the head of the list, or `none`; `runSub` is the non-overlapping
left-to-right scan of `re.sub(pattern, '', text)`.  The `Bool` argument
tells whether the previous character of the original text is a word
character (used only by the `\b` of the percentage pattern). -/

/-- `\b\d+\.?\d*%` at the head of the list. -/
def matchPercent (prevW : Bool) (l : List Char) : Option Nat :=
  if prevW then none else
  let d := countLeading Char.isDigit l
  if d = 0 then none else
  match l.drop d with
  | '.' :: r2 =>
    let d2 := countLeading Char.isDigit r2
    (match r2.drop d2 with
      | '%' :: _ => some (d + 1 + d2 + 1)
      | _ => none)
  | '%' :: _ => some (d + 1)
  | _ => none

/-- `\([^)]*\)` at the head of the list. -/
def matchParen (l : List Char) : Option Nat :=
  match l with
  | '(' :: rest =>
    let k := countLeading (fun c => !(c == ')')) rest
    (match rest.drop k with
      | ')' :: _ => some (k + 2)
      | _ => none)
  | _ => none

/-- `\[[^\]]*\]` at the head of the list. -/
def matchBracket (l : List Char) : Option Nat :=
  match l with
  | '[' :: rest =>
    let k := countLeading (fun c => !(c == ']')) rest
    (match rest.drop k with
      | ']' :: _ => some (k + 2)
      | _ => none)
  | _ => none

/-- `E\d{3,4}` (IGNORECASE) at the head of the list. -/
def matchAdditive (l : List Char) : Option Nat :=
  match l with
  | c :: rest =>
    if c == 'e' || c == 'E' then
      let d := countLeading Char.isDigit rest
      if 3 ≤ d then some (1 + min d 4) else none
    else none
  | [] => none

def preservLits : List (List Char) :=
  ["preservative".data, "antioxidant".data, "emulsifier".data, "stabilizer".data]

def matchColonLit (lit : List Char) (l : List Char) : Option Nat :=
  if litHasPreCI lit l then
    match l.drop lit.length with
    | ':' :: rest => some (lit.length + 1 + countLeading isPySpace rest)
    | _ => none
  else none

/-- `(preservative|antioxidant|emulsifier|stabilizer):\s*` at the head. -/
def matchPreserv (l : List Char) : Option Nat :=
  (preservLits.map (fun lit => matchColonLit lit l)).foldl (fun a b => a <|> b) none

def warnLits : List (List Char) :=
  ["may contain".data, "contains".data, "produced in facility".data]

/-- `(may contain|contains|produced in facility)` at the head. -/
def matchWarn (l : List Char) : Option Nat :=
  (warnLits.map (fun lit => if litHasPreCI lit l then some lit.length else none)).foldl
    (fun a b => a <|> b) none

/-- One full `re.sub(pattern, '', text)` pass: at each position try the
matcher; on a match drop it and continue after its end, otherwise keep the
character.  Fuel is the length of the list (every step consumes at least
one character). -/
def runSubAux (m : Bool → List Char → Option Nat) : Nat → Bool → List Char → List Char
  | 0, _, l => l
  | _ + 1, _, [] => []
  | fuel + 1, prevW, c :: cs =>
    match m prevW (c :: cs) with
    | none => c :: runSubAux m fuel (isWordChar c) cs
    | some n =>
      runSubAux m fuel (isWordChar ((c :: cs).getD (n - 1) c)) (List.drop (n - 1) cs)

def runSub (m : Bool → List Char → Option Nat) (l : List Char) : List Char :=
  runSubAux m l.length false l

/-- The six substitution passes of `_parse_ingredients`, in source order. -/
def applySubs (l : List Char) : List Char :=
  let l1 := runSub matchPercent l
  let l2 := runSub (fun _ => matchParen) l1
  let l3 := runSub (fun _ => matchBracket) l2
  let l4 := runSub (fun _ => matchAdditive) l3
  let l5 := runSub (fun _ => matchPreserv) l4
  runSub (fun _ => matchWarn) l5

/-! ## Splitting and cleaning -/

/-- Python `str.split(sep)` for a non-empty separator string
(non-overlapping, left to right).  Fuel bounds the recursion. -/
def splitLitAux (sep : List Char) : Nat → List Char → List Char → List (List Char)
  | 0, l, acc => [acc.reverse ++ l]
  | _ + 1, [], acc => [acc.reverse]
  | fuel + 1, c :: cs, acc =>
    if litHasPre sep (c :: cs) then
      acc.reverse :: splitLitAux sep fuel (List.drop sep.length (c :: cs)) []
    else
      splitLitAux sep fuel cs (c :: acc)

def pySplitStr (sep : String) (s : String) : List String :=
  (splitLitAux sep.data (s.data.length + 1) s.data []).map String.mk

/-- The separator cascade of `_parse_ingredients`.  NOTE: the source writes
the last three separators as `'\\n'`, `'\\r'`, `'|'` — the first two are the
two-character texts backslash+n and backslash+r, not actual line breaks. -/
def splitRounds (text : String) : List String :=
  [",", ";", "\\n", "\\r", "|"].foldl
    (fun ings sep => (ings.map (fun ing => (pySplitStr sep ing).map pyStrip)).flatten)
    [text]

/-- The cleaning step applied to each token: strip, keep only tokens of
length > 1, drop leading `[\d\.\-\s]*`, strip trailing `.,;:`, drop empties.
(The length test happens before the leading/trailing cleanup, as in the
source.) -/
def cleanIngredient (ing : String) : Option String :=
  let i := pyStrip ing
  if i ≠ "" ∧ 1 < i.length then
    let i2 := String.mk (i.data.dropWhile
      (fun c => c.isDigit || c == '.' || c == '-' || isPySpace c))
    let i3 := pyRstrip i2 ['.', ',', ';', ':']
    if i3 ≠ "" then some i3 else none
  else none

/-- `IngredientAnalyzer._parse_ingredients`. -/
def parseIngredients (raw : String) : List String :=
  if raw = "" ∨ pyStrip raw = "" then []
  else
    let text := pyStrip (pyLower raw)
    let text2 := String.mk (applySubs text.data)
    (splitRounds text2).filterMap cleanIngredient

/-- The canonical comma-joined form of a token sequence, used to state the
spec's idempotence property `parse(parse(x)) == parse(x)`. -/
def joinTokens : List String → String
  | [] => ""
  | [t] => t
  | t :: ts => t ++ ", " ++ joinTokens ts

/-! ## User profile

`UserProfile` carries more fields in the source (name, age, weight,
conditions, contact, timestamps); the core matching logic reads only
`allergies` and `medications`, so only those are embedded.  Python keeps
them as lists (`allergies or []`). -/

structure UserProfile where
  allergies : List String
  medications : List String
deriving DecidableEq, Repr

/-- `UserProfile.add_allergy`: append unless empty or already present up to
lower-casing (`if allergy and allergy.lower() not in [a.lower() for a in
self.allergies]`). -/
def addAllergy (allergy : String) (allergies : List String) : List String :=
  if allergy ≠ "" ∧ pyLower allergy ∉ allergies.map pyLower then
    allergies ++ [allergy]
  else allergies

/-! ## Allergen knowledge base (`AllergyChecker.__init__`) -/

def allergenDatabase : List (String × List String) :=
  [("dairy", ["milk", "cheese", "butter", "cream", "yogurt", "lactose",
      "casein", "whey", "lactoglobulin", "lactalbumin"]),
   ("eggs", ["egg", "eggs", "albumin", "globulin", "lecithin",
      "lysozyme", "mayonnaise", "meringue", "ovalbumin"]),
   ("peanuts", ["peanut", "peanuts", "groundnut", "ground nut",
      "arachis oil", "peanut oil", "peanut butter"]),
   ("tree_nuts", ["almond", "brazil nut", "cashew", "hazelnut", "pecan",
      "pistachio", "walnut", "macadamia", "pine nut", "chestnut"]),
   ("soy", ["soy", "soya", "soybean", "tofu", "miso", "tempeh",
      "soy sauce", "lecithin", "edamame"]),
   ("wheat", ["wheat", "flour", "gluten", "semolina", "spelt",
      "kamut", "bulgur", "couscous", "seitan"]),
   ("fish", ["fish", "salmon", "tuna", "cod", "sardine", "anchovy",
      "mackerel", "bass", "trout", "fish sauce"]),
   ("shellfish", ["crab", "lobster", "shrimp", "prawn", "scallop",
      "oyster", "mussel", "clam", "crayfish", "langoustine"]),
   ("sesame", ["sesame", "tahini", "sesame oil", "sesame seed", "gomasio"])]

def severityLevels : List (String × String) :=
  [("peanuts", "high"), ("tree_nuts", "high"), ("shellfish", "high"),
   ("fish", "moderate"), ("eggs", "moderate"), ("dairy", "moderate"),
   ("soy", "low"), ("wheat", "moderate"), ("sesame", "moderate")]

def crossContaminationTable : List (String × List String) :=
  [("peanuts", ["tree_nuts", "soy"]), ("tree_nuts", ["peanuts"]),
   ("dairy", ["eggs"]), ("wheat", ["oats", "barley", "rye"])]

/-- `dict.get(key, [])` on a string-keyed table. -/
def dbGet (table : List (String × List String)) (key : String) : List String :=
  match table.find? (fun kv => kv.1 == key) with
  | some kv => kv.2
  | none => []

/-! ## Allergen matching (`AllergyChecker`) -/

/-- The category-resolution loop shared by `_find_allergen_matches` and
`_check_cross_contamination`: first category (in database order) whose
synonym list has a bidirectional substring match with the (already
normalized) user allergy.  The category *name* itself is not tested. -/
def findAllergenCategory (ua : String) : Option String :=
  (allergenDatabase.find? (fun cat =>
    cat.2.any (fun al => pyIn ua al || pyIn al ua))).map (fun cat => cat.1)

/-- `AllergyChecker._find_allergen_matches` (ingredients are the already
normalized list built in `check_allergens`). -/
def findAllergenMatches (userAllergy : String) (ingredients : List String) : List String :=
  let ua := pyStrip (pyLower userAllergy)
  let direct := ingredients.filter (fun ing => pyIn ua ing || pyIn ing ua)
  match findAllergenCategory ua with
  | none => direct
  | some cat =>
    let catAllergens := dbGet allergenDatabase cat
    ingredients.foldl (fun ms ing =>
      if catAllergens.any (fun al => pyIn al ing || pyIn ing al) && !(ms.contains ing)
      then ms ++ [ing] else ms) direct

/-- `AllergyChecker._get_allergen_severity`. -/
def getAllergenSeverity (allergen : String) : String :=
  let al := pyStrip (pyLower allergen)
  match severityLevels.find? (fun sv =>
    pyIn al sv.1 || pyIn sv.1 al
      || (dbGet allergenDatabase sv.1).any (fun dbAl => pyIn al dbAl || pyIn dbAl al)) with
  | some sv => sv.2
  | none => "moderate"

/-- `AllergyChecker._check_cross_contamination`: one warning per related
category some of whose synonyms occur inside some ingredient. -/
def checkCrossContamination (userAllergy : String) (ingredients : List String) : List String :=
  let al := pyStrip (pyLower userAllergy)
  match findAllergenCategory al with
  | none => []
  | some cat =>
    (dbGet crossContaminationTable cat).foldl (fun risks riskCat =>
      if ingredients.any (fun ing =>
          (dbGet allergenDatabase riskCat).any (fun ra => pyIn ra ing))
      then risks ++ ["Cross-contamination risk with " ++ riskCat] else risks) []

/-- `AllergyChecker._calculate_overall_risk`. -/
def calculateOverallRisk (highRisk moderateRisk lowRisk : List String) : String :=
  if highRisk ≠ [] then "high"
  else if moderateRisk ≠ [] then "moderate"
  else if lowRisk ≠ [] then "low"
  else "safe"

/-- Accumulator of the per-allergy loop in `check_allergens`. -/
structure AllergyAccum where
  detected : List String
  highs : List String
  moderates : List String
  lows : List String
  cross : List String
deriving DecidableEq, Repr

/-- One iteration of the `for user_allergy in user_profile.allergies` loop
of `check_allergens`.  Cross-contamination is checked only inside the
`if allergen_matches:` branch, exactly as in the source. -/
def allergyStep (normalized : List String) (st : AllergyAccum) (ua : String) : AllergyAccum :=
  if findAllergenMatches ua normalized = [] then st
  else
    let sev := getAllergenSeverity ua
    let st1 : AllergyAccum :=
      { st with detected := st.detected ++ [ua],
                cross := st.cross ++ checkCrossContamination ua normalized }
    if sev = "high" then { st1 with highs := st1.highs ++ [ua] }
    else if sev = "moderate" then { st1 with moderates := st1.moderates ++ [ua] }
    else { st1 with lows := st1.lows ++ [ua] }

/-- Result record of `check_allergens` (the `recommendations` and the
`ingredient_matches` debugging field are presentation-only and not read by
any claim, so they are not embedded).  `cross_contamination_risks` is
`list(set(...))` in the source — an order-arbitrary deduplication, modelled
by `List.eraseDups` (same membership). -/
structure AllergyResult where
  riskLevel : String
  detectedAllergens : List String
  highRiskAllergens : List String
  moderateRiskAllergens : List String
  lowRiskAllergens : List String
  crossContaminationRisks : List String
deriving DecidableEq, Repr

/-- `AllergyChecker.check_allergens`. -/
def checkAllergens (ingredients : List String) (profile : UserProfile) : AllergyResult :=
  if profile.allergies = [] then
    { riskLevel := "unknown", detectedAllergens := [], highRiskAllergens := [],
      moderateRiskAllergens := [], lowRiskAllergens := [], crossContaminationRisks := [] }
  else
    let normalized := ingredients.map (fun ing => pyStrip (pyLower ing))
    let st := profile.allergies.foldl (allergyStep normalized) ⟨[], [], [], [], []⟩
    { riskLevel := calculateOverallRisk st.highs st.moderates st.lows,
      detectedAllergens := st.detected,
      highRiskAllergens := st.highs,
      moderateRiskAllergens := st.moderates,
      lowRiskAllergens := st.lows,
      crossContaminationRisks := st.cross.eraseDups }

/-! ## Hidden allergen detection (`IngredientAnalyzer._detect_hidden_allergens`) -/

def hiddenSources : List (String × List String) :=
  [("dairy", ["casein", "whey", "lactose", "lactoglobulin", "lactalbumin",
      "ghee", "butter flavor", "cream flavor", "milk solids"]),
   ("egg", ["albumin", "globulin", "lecithin", "lysozyme", "ovalbumin",
      "egg whites", "egg substitute"]),
   ("soy", ["lecithin", "tocopherol", "vegetable protein", "vegetable oil",
      "natural flavor"]),
   ("wheat", ["modified food starch", "vegetable protein", "malt",
      "dextrin", "maltodextrin", "starch"]),
   ("peanuts", ["arachis oil", "groundnut oil", "beer nuts", "monkey nuts"]),
   ("tree_nuts", ["natural flavoring", "marzipan", "nougat", "praline"])]

/-- `_detect_hidden_allergens`: per allergy, per bidirectionally-matching
category, each ingredient containing some hidden alias yields the label
`"<ingredient> (hidden <category>)"`; the final `list(set(...))` is
modelled by `List.eraseDups`. -/
def detectHiddenAllergens (ingredients : List String) (profile : UserProfile) : List String :=
  if profile.allergies = [] then []
  else
    ((profile.allergies.map (fun ua =>
      let al := pyLower ua
      (hiddenSources.map (fun cat =>
        if pyIn cat.1 al || pyIn al cat.1 then
          ingredients.filterMap (fun ing =>
            if cat.2.any (fun hn => pyIn hn (pyLower ing)) then
              some (ing ++ " (hidden " ++ cat.1 ++ ")")
            else none)
        else [])).flatten)).flatten).eraseDups

/-- The `risk_level` field of `IngredientAnalyzer.analyze_ingredients`:
the parsed ingredients are fed to `check_allergens`, whose `risk_level`
is merged unchanged into the comprehensive analysis; an empty parse
short-circuits to `'unknown'`. -/
def analysisRiskLevel (text : String) (profile : UserProfile) : String :=
  let ings := parseIngredients text
  if ings = [] then "unknown" else (checkAllergens ings profile).riskLevel

/-- The `hidden_allergens` field of `analyze_ingredients` (present whenever
the parse is non-empty). -/
def analysisHiddenAllergens (text : String) (profile : UserProfile) : List String :=
  detectHiddenAllergens (parseIngredients text) profile

/-! ## Medication knowledge base (`MedicationChecker.__init__` and
`_get_medication_aliases` / `_check_ingredient_aliases` tables) -/

structure MedRecord where
  name : String
  avoid : List String
  caution : List String
  severity : String
  timing : Option String
deriving DecidableEq, Repr

def warfarinRecord : MedRecord :=
  { name := "warfarin",
    avoid := ["vitamin k", "green leafy vegetables", "broccoli", "spinach", "kale"],
    caution := ["alcohol", "cranberry juice", "grapefruit"],
    severity := "high", timing := none }

def levothyroxineRecord : MedRecord :=
  { name := "levothyroxine",
    avoid := ["soy products", "coffee", "calcium supplements"],
    caution := ["iron supplements", "high fiber foods"],
    severity := "moderate", timing := some "take 30-60 minutes before eating" }

/-- `self.known_interactions`, in dict insertion order. -/
def knownInteractions : List MedRecord :=
  [warfarinRecord,
   { name := "aspirin", avoid := ["alcohol"],
     caution := ["vitamin e", "omega-3", "fish oil", "garlic supplements"],
     severity := "moderate", timing := none },
   { name := "metformin", avoid := ["excessive alcohol"],
     caution := ["high carbohydrate foods", "sugary drinks"],
     severity := "moderate", timing := none },
   { name := "lisinopril", avoid := ["potassium supplements", "salt substitutes"],
     caution := ["bananas", "oranges", "potatoes", "high potassium foods"],
     severity := "moderate", timing := none },
   { name := "simvastatin", avoid := ["grapefruit", "grapefruit juice"],
     caution := ["red yeast rice", "niacin", "alcohol"],
     severity := "high", timing := none },
   { name := "digoxin", avoid := ["licorice", "st johns wort"],
     caution := ["high fiber foods", "bran"],
     severity := "high", timing := none },
   levothyroxineRecord,
   { name := "monoamine oxidase inhibitor",
     avoid := ["aged cheeses", "wine", "beer", "soy sauce", "pickled foods", "smoked meats"],
     caution := ["chocolate", "caffeine", "fava beans"],
     severity := "high", timing := none },
   { name := "tetracycline", avoid := ["dairy products", "calcium", "iron supplements"],
     caution := ["antacids", "aluminum", "magnesium"],
     severity := "moderate", timing := some "take 1 hour before or 2 hours after meals" },
   { name := "phenytoin", avoid := ["alcohol"],
     caution := ["folic acid supplements", "tube feeding"],
     severity := "moderate", timing := none }]

structure MedCategory where
  name : String
  medications : List String
  foodInteractions : List String
  severity : String
deriving DecidableEq, Repr

/-- `self.medication_categories`. -/
def medicationCategories : List MedCategory :=
  [{ name := "blood_thinners",
     medications := ["warfarin", "heparin", "coumadin", "eliquis", "xarelto"],
     foodInteractions := ["vitamin k rich foods", "alcohol", "cranberry", "grapefruit"],
     severity := "high" },
   { name := "antibiotics",
     medications := ["tetracycline", "ciprofloxacin", "amoxicillin", "penicillin"],
     foodInteractions := ["dairy products", "calcium", "iron"],
     severity := "moderate" },
   { name := "antidepressants",
     medications := ["ssri", "maoi", "tricyclic", "sertraline", "fluoxetine"],
     foodInteractions := ["alcohol", "aged foods", "tyramine rich foods"],
     severity := "high" },
   { name := "heart_medications",
     medications := ["digoxin", "beta blockers", "ace inhibitors"],
     foodInteractions := ["potassium", "sodium", "alcohol"],
     severity := "moderate" },
   { name := "diabetes_medications",
     medications := ["metformin", "insulin", "sulfonylureas"],
     foodInteractions := ["alcohol", "high sugar foods", "carbohydrates"],
     severity := "moderate" }]

/-- `MedicationChecker._get_medication_aliases` (keyed by record name,
default `[]`). -/
def medicationAliasTable : List (String × List String) :=
  [("warfarin", ["coumadin", "jantoven"]),
   ("aspirin", ["acetylsalicylic acid", "asa"]),
   ("metformin", ["glucophage", "fortamet"]),
   ("lisinopril", ["prinivil", "zestril"]),
   ("simvastatin", ["zocor"]),
   ("levothyroxine", ["synthroid", "levoxyl", "thyroid hormone"]),
   ("digoxin", ["lanoxin", "digitalis"])]

def getMedicationAliases (medication : String) : List String :=
  dbGet medicationAliasTable medication

/-- The alias table inside `MedicationChecker._check_ingredient_aliases`. -/
def ingredientAliasTable : List (String × List String) :=
  [("vitamin k", ["phylloquinone", "menaquinone", "green leafy"]),
   ("grapefruit", ["citrus paradisi", "grapefruit juice"]),
   ("dairy", ["milk", "cheese", "yogurt", "cream", "butter"]),
   ("alcohol", ["ethanol", "wine", "beer", "spirits", "ethyl alcohol"]),
   ("caffeine", ["coffee", "tea", "cola", "energy drink"]),
   ("tyramine", ["aged cheese", "wine", "soy sauce", "pickled"]),
   ("potassium", ["banana", "orange", "potato", "salt substitute"])]

/-! ## Medication interaction matching (`MedicationChecker`) -/

/-- Python `str.split()` with no argument: split on whitespace runs,
discarding empty pieces. -/
def splitWsAux : List Char → List Char → List (List Char)
  | [], acc => if acc = [] then [] else [acc.reverse]
  | c :: cs, acc =>
    if isPySpace c then
      (if acc = [] then [] else [acc.reverse]) ++ splitWsAux cs []
    else splitWsAux cs (c :: acc)

def pySplitWs (s : String) : List String :=
  (splitWsAux s.data []).map String.mk

/-- `MedicationChecker._check_ingredient_aliases`: the first alias group
related to the target by bidirectional containment decides the answer
(the loop returns early even when that answer is `false`). -/
def checkIngredientAliases (ingredient target : String) : Bool :=
  match ingredientAliasTable.find? (fun g => pyIn g.1 target || pyIn target g.1) with
  | some g => g.2.any (fun al => pyIn al ingredient)
  | none => false

/-- `MedicationChecker._ingredient_contains`: direct substring, all words
of the term, or the shared-alias-group test. -/
def ingredientContains (ingredients : List String) (target : String) : Bool :=
  let tl := pyLower target
  let targetWords := pySplitWs tl
  ingredients.any (fun ing =>
    let il := pyLower ing
    pyIn tl il || targetWords.all (fun w => pyIn w il) || checkIngredientAliases il tl)

/-- The resolution test of `_check_single_medication`: record name is a
substring of the normalized medication, or some alias of the record is. -/
def medResolves (ml : String) (rec : MedRecord) : Bool :=
  pyIn rec.name ml || (getMedicationAliases rec.name).any (fun al => pyIn al ml)

/-- One interaction of the rich dictionaries built by
`_check_single_medication` / `_check_category_interactions`.  The `timing`
field models `interaction_data.get('timing', '')` (category interactions
carry no timing key, modelled as `""`). -/
structure Interaction where
  medication : String
  ingredient : String
  interactionType : String
  severity : String
  description : String
  timing : String
  category : Option String
deriving DecidableEq, Repr

def mkAvoidInteraction (medication : String) (rec : MedRecord) (item : String) : Interaction :=
  { medication := medication, ingredient := item, interactionType := "avoid",
    severity := rec.severity,
    description := "Should avoid " ++ item ++ " when taking " ++ medication,
    timing := rec.timing.getD "", category := none }

def mkCautionInteraction (medication : String) (rec : MedRecord) (item : String) : Interaction :=
  { medication := medication, ingredient := item, interactionType := "caution",
    severity := if rec.severity = "high" then "moderate" else "low",
    description := "Use caution with " ++ item ++ " when taking " ++ medication,
    timing := rec.timing.getD "", category := none }

def mkCategoryInteraction (medication : String) (cat : MedCategory) (item : String) : Interaction :=
  { medication := medication, ingredient := item, interactionType := "category_interaction",
    severity := cat.severity,
    description := item ++ " may interact with "
      ++ String.mk (cat.name.data.map (fun c => if c == '_' then ' ' else c))
      ++ " medications",
    timing := "", category := some cat.name }

/-- `MedicationChecker._check_category_interactions` (`medication_lower`
is written out in place of the source's local variable). -/
def checkCategoryInteractions (medication : String) (ingredients : List String) : List Interaction :=
  (medicationCategories.map (fun cat =>
    if cat.medications.any (fun med => pyIn med (pyStrip (pyLower medication))) then
      (cat.foodInteractions.filter (fun item => ingredientContains ingredients item)).map
        (mkCategoryInteraction medication cat)
    else [])).flatten

/-- `MedicationChecker._check_single_medication`: every record the
medication resolves to contributes its matched avoid items (record
severity) then its matched caution items (one level below, floor low),
followed by the category-based interactions (`medication_lower` is written
out in place of the source's local variable). -/
def checkSingleMedication (medication : String) (ingredients : List String) : List Interaction :=
  ((knownInteractions.map (fun rec =>
    if medResolves (pyStrip (pyLower medication)) rec then
      (rec.avoid.filter (fun item => ingredientContains ingredients item)).map
        (mkAvoidInteraction medication rec)
      ++ (rec.caution.filter (fun item => ingredientContains ingredients item)).map
        (mkCautionInteraction medication rec)
    else [])).flatten)
  ++ checkCategoryInteractions medication ingredients

/-- Result record of `check_interactions`.  The early return for a profile
without medications omits the `detailed_interactions` key, hence the
`Option`; `recommendations` is presentation-only and not embedded. -/
structure InteractionResult where
  interactionsFound : Bool
  totalInteractions : Nat
  highRiskInteractions : List Interaction
  moderateRiskInteractions : List Interaction
  lowRiskInteractions : List Interaction
  timingRecommendations : List (String × String)
  detailedInteractions : Option (List Interaction)
deriving DecidableEq, Repr

/-- `MedicationChecker.check_interactions`.  The per-medication loop
extends `all_interactions` and classifies each interaction by severity
(`high` / elif `moderate` / else low), collecting `(medication, timing)`
pairs for interactions with a truthy timing; concatenation over the
medication list is written with `map`/`flatten`/`filter`, which preserves
the source's ordering. -/
def checkInteractions (ingredients : List String) (profile : UserProfile) : InteractionResult :=
  if profile.medications = [] then
    { interactionsFound := false, totalInteractions := 0,
      highRiskInteractions := [], moderateRiskInteractions := [],
      lowRiskInteractions := [], timingRecommendations := [],
      detailedInteractions := none }
  else
    let allInteractions :=
      (profile.medications.map (fun med => checkSingleMedication med ingredients)).flatten
    { interactionsFound := decide (0 < allInteractions.length),
      totalInteractions := allInteractions.length,
      highRiskInteractions := allInteractions.filter (fun i => i.severity == "high"),
      moderateRiskInteractions := allInteractions.filter
        (fun i => !(i.severity == "high") && i.severity == "moderate"),
      lowRiskInteractions := allInteractions.filter
        (fun i => !(i.severity == "high") && !(i.severity == "moderate")),
      timingRecommendations := (profile.medications.map (fun med =>
        (checkSingleMedication med ingredients).filterMap (fun i =>
          if i.timing = "" then none else some (med, i.timing)))).flatten,
      detailedInteractions := some allInteractions }

/-- The internal-consistency property of a `check_interactions` result
asserted by the claims: the detailed list exists, its length is the total,
the three severity buckets partition it, and the found flag reflects a
positive total. -/
def medResultConsistent (r : InteractionResult) : Prop :=
  ∃ l, r.detailedInteractions = some l
    ∧ r.totalInteractions = l.length
    ∧ r.totalInteractions = r.highRiskInteractions.length
        + r.moderateRiskInteractions.length + r.lowRiskInteractions.length
    ∧ (r.interactionsFound = true ↔ 0 < r.totalInteractions)

/-! ## Helper lemmas -/

theorem calculateOverallRisk_ne_unknown (a b c : List String) :
    calculateOverallRisk a b c ≠ "unknown" := by
  unfold calculateOverallRisk
  split
  · decide
  · split
    · decide
    · split
      · decide
      · decide

theorem sevFilterPartition (l : List Interaction) :
    l.length = (l.filter (fun i => i.severity == "high")).length
      + (l.filter (fun i => !(i.severity == "high") && i.severity == "moderate")).length
      + (l.filter (fun i => !(i.severity == "high") && !(i.severity == "moderate"))).length := by
  induction l with
  | nil => rfl
  | cons a l ih =>
    cases h1 : (a.severity == "high") <;> cases h2 : (a.severity == "moderate") <;>
      simp [List.filter_cons, h1, h2] <;> omega

theorem mkAvoid_mem_checkSingleMedication
    (medication : String) (ingredients : List String) (rec : MedRecord) (item : String)
    (hrec : rec ∈ knownInteractions)
    (hres : medResolves (pyStrip (pyLower medication)) rec = true)
    (hitem : item ∈ rec.avoid)
    (hhit : ingredientContains ingredients item = true) :
    mkAvoidInteraction medication rec item ∈ checkSingleMedication medication ingredients := by
  unfold checkSingleMedication
  refine List.mem_append_left _ ?_
  refine List.mem_flatten.mpr ⟨_, List.mem_map_of_mem _ hrec, ?_⟩
  rw [if_pos hres]
  exact List.mem_append_left _
    (List.mem_map_of_mem _ (List.mem_filter.mpr ⟨hitem, hhit⟩))

theorem mkCaution_mem_checkSingleMedication
    (medication : String) (ingredients : List String) (rec : MedRecord) (item : String)
    (hrec : rec ∈ knownInteractions)
    (hres : medResolves (pyStrip (pyLower medication)) rec = true)
    (hitem : item ∈ rec.caution)
    (hhit : ingredientContains ingredients item = true) :
    mkCautionInteraction medication rec item ∈ checkSingleMedication medication ingredients := by
  unfold checkSingleMedication
  refine List.mem_append_left _ ?_
  refine List.mem_flatten.mpr ⟨_, List.mem_map_of_mem _ hrec, ?_⟩
  rw [if_pos hres]
  exact List.mem_append_right _
    (List.mem_map_of_mem _ (List.mem_filter.mpr ⟨hitem, hhit⟩))

theorem getD_ne_empty_eq (o : Option String) (h : o.getD "" ≠ "") : o = some (o.getD "") := by
  cases o with
  | none => exact absurd rfl h
  | some a => rfl

/-- Inversion: an interaction with a non-empty timing produced by
`_check_single_medication` can only come from the avoid/caution phase of a
resolved record carrying that timing note and having a matched term
(category interactions carry no timing). -/
theorem timing_source_of_checkSingleMedication
    (medication : String) (ingredients : List String) (i : Interaction)
    (hi : i ∈ checkSingleMedication medication ingredients)
    (hne : i.timing ≠ "") :
    ∃ rec ∈ knownInteractions,
      medResolves (pyStrip (pyLower medication)) rec = true
      ∧ rec.timing = some i.timing
      ∧ ∃ item, (item ∈ rec.avoid ∨ item ∈ rec.caution)
          ∧ ingredientContains ingredients item = true := by
  unfold checkSingleMedication at hi
  rcases List.mem_append.mp hi with hd | hcat
  · obtain ⟨blk, hblk, hib⟩ := List.mem_flatten.mp hd
    obtain ⟨rec, hrec, hbe⟩ := List.mem_map.mp hblk
    rw [← hbe] at hib
    have hib2 : i ∈ (if medResolves (pyStrip (pyLower medication)) rec then
        (rec.avoid.filter (fun item => ingredientContains ingredients item)).map
          (mkAvoidInteraction medication rec)
        ++ (rec.caution.filter (fun item => ingredientContains ingredients item)).map
          (mkCautionInteraction medication rec)
      else []) := hib
    by_cases hres : medResolves (pyStrip (pyLower medication)) rec = true
    · rw [if_pos hres] at hib2
      rcases List.mem_append.mp hib2 with hav | hca
      · obtain ⟨item, hitem, hie⟩ := List.mem_map.mp hav
        obtain ⟨hin, hhit⟩ := List.mem_filter.mp hitem
        rw [← hie]
        have ht : rec.timing = some (rec.timing.getD "") :=
          getD_ne_empty_eq rec.timing (by rw [← hie] at hne; exact hne)
        exact ⟨rec, hrec, hres, ht, item, Or.inl hin, hhit⟩
      · obtain ⟨item, hitem, hie⟩ := List.mem_map.mp hca
        obtain ⟨hin, hhit⟩ := List.mem_filter.mp hitem
        rw [← hie]
        have ht : rec.timing = some (rec.timing.getD "") :=
          getD_ne_empty_eq rec.timing (by rw [← hie] at hne; exact hne)
        exact ⟨rec, hrec, hres, ht, item, Or.inr hin, hhit⟩
    · rw [if_neg hres] at hib2
      exact absurd hib2 (List.not_mem_nil i)
  · exfalso
    unfold checkCategoryInteractions at hcat
    obtain ⟨blk, hblk, hib⟩ := List.mem_flatten.mp hcat
    obtain ⟨cat, hcatm, hbe⟩ := List.mem_map.mp hblk
    rw [← hbe] at hib
    have hib2 : i ∈ (if cat.medications.any
          (fun med => pyIn med (pyStrip (pyLower medication))) then
        (cat.foodInteractions.filter (fun item => ingredientContains ingredients item)).map
          (mkCategoryInteraction medication cat)
      else []) := hib
    by_cases hc : cat.medications.any (fun med => pyIn med (pyStrip (pyLower medication))) = true
    · rw [if_pos hc] at hib2
      obtain ⟨item, hitem, hie⟩ := List.mem_map.mp hib2
      rw [← hie] at hne
      exact hne rfl
    · rw [if_neg hc] at hib2
      exact absurd hib2 (List.not_mem_nil i)

/-! ## Claims -/

/-- Claim C1, counterexample: with allergies `{"peanuts"}` and parsed
ingredients `["soy lecithin"]`, `check_allergens` finds no direct match
and — contrary to the claim — its `cross_contamination_risks` is empty,
containing no warning referencing "soy": the cross-contamination check is
never reached for an allergy without direct matches. -/
theorem scenarioE_no_cross_warning :
    (checkAllergens ["soy lecithin"]
      { allergies := ["peanuts"], medications := [] }).crossContaminationRisks = []
    ∧ (checkAllergens ["soy lecithin"]
      { allergies := ["peanuts"], medications := [] }).detectedAllergens = [] :=
  ⟨rfl, rfl⟩

/-- Claim C1 (amended): cross-contamination checking is performed only for
a user allergy with at least one direct ingredient match — a loop
iteration whose `_find_allergen_matches` result is empty leaves the whole
accumulated state (including cross-contamination risks) unchanged; when a
direct peanut match is present (`["peanut butter", "soy lecithin"]`), the
cross-contamination warning referencing "soy" does appear. -/
theorem crossContamination_only_after_direct_match
    (normalized : List String) (st : AllergyAccum) (ua : String)
    (h : findAllergenMatches ua normalized = []) :
    allergyStep normalized st ua = st
    ∧ (checkAllergens ["peanut butter", "soy lecithin"]
        { allergies := ["peanuts"], medications := [] }).crossContaminationRisks
      = ["Cross-contamination risk with soy"] := by
  constructor
  · unfold allergyStep
    rw [if_pos h]
  · rfl

/-- Witness for C1's amended theorem at the concrete scenario-E input. -/
theorem crossContamination_only_witness :
    allergyStep ["soy lecithin"] ⟨[], [], [], [], []⟩ "peanuts" = ⟨[], [], [], [], []⟩ :=
  (crossContamination_only_after_direct_match ["soy lecithin"]
    ⟨[], [], [], [], []⟩ "peanuts" (by decide)).1

/-- Claim C2, counterexample: for allergies `{"dairy"}` and ingredient text
`"whey protein, sugar"` the overall risk level is `"safe"`, not moderate or
higher — the user allergy `"dairy"` resolves to no category in
`_find_allergen_matches` (the dairy synonym list does not contain the word
"dairy"), and hidden-allergen hits do not feed into the risk level. -/
theorem scenarioD_risk_not_moderate :
    analysisRiskLevel "whey protein, sugar" { allergies := ["dairy"], medications := [] } = "safe"
    ∧ analysisRiskLevel "whey protein, sugar" { allergies := ["dairy"], medications := [] } ≠ "moderate"
    ∧ analysisRiskLevel "whey protein, sugar" { allergies := ["dairy"], medications := [] } ≠ "high" :=
  ⟨rfl, by decide, by decide⟩

/-- Claim C2 (amended): the analysis of `"whey protein, sugar"` for a
profile with allergies `{"dairy"}` does report the hidden-allergen label
`"whey protein (hidden dairy)"`, but its overall risk level is `"safe"`
(hidden matches do not affect `risk_level`, and "dairy" does not resolve
to an allergen category in the direct-match path). -/
theorem scenarioD_hidden_found_but_risk_safe :
    analysisHiddenAllergens "whey protein, sugar" { allergies := ["dairy"], medications := [] }
      = ["whey protein (hidden dairy)"]
    ∧ analysisRiskLevel "whey protein, sugar" { allergies := ["dairy"], medications := [] } = "safe" :=
  ⟨rfl, rfl⟩

/-- Claim C3, counterexample: a profile with no allergies but a declared
medication still yields overall risk `"unknown"` from `check_allergens` —
the early return tests only `user_profile.allergies`. -/
theorem medications_only_profile_yields_unknown :
    (checkAllergens ["water"]
      { allergies := [], medications := ["warfarin"] }).riskLevel = "unknown" :=
  rfl

/-- Claim C3 (amended): the overall risk level is `"unknown"` if and only
if the profile declares no allergies (medications are irrelevant to
`check_allergens`); otherwise it is the maximum severity among the
non-empty severity buckets, or `"safe"` when all are empty. -/
theorem riskLevel_unknown_iff_no_allergies (ings : List String) (p : UserProfile) :
    ((checkAllergens ings p).riskLevel = "unknown" ↔ p.allergies = [])
    ∧ (p.allergies ≠ [] →
        ((checkAllergens ings p).highRiskAllergens ≠ [] →
          (checkAllergens ings p).riskLevel = "high")
        ∧ ((checkAllergens ings p).highRiskAllergens = [] →
            (checkAllergens ings p).moderateRiskAllergens ≠ [] →
          (checkAllergens ings p).riskLevel = "moderate")
        ∧ ((checkAllergens ings p).highRiskAllergens = [] →
            (checkAllergens ings p).moderateRiskAllergens = [] →
            (checkAllergens ings p).lowRiskAllergens ≠ [] →
          (checkAllergens ings p).riskLevel = "low")
        ∧ ((checkAllergens ings p).highRiskAllergens = [] →
            (checkAllergens ings p).moderateRiskAllergens = [] →
            (checkAllergens ings p).lowRiskAllergens = [] →
          (checkAllergens ings p).riskLevel = "safe")) := by
  by_cases hp : p.allergies = []
  · constructor
    · simp [checkAllergens, hp]
    · intro h; exact absurd hp h
  · unfold checkAllergens
    rw [if_neg hp]
    constructor
    · constructor
      · intro h; exact absurd h (calculateOverallRisk_ne_unknown _ _ _)
      · intro h; exact absurd h hp
    · intro _
      refine ⟨?_, ?_, ?_, ?_⟩
      · intro h1; simp only [calculateOverallRisk, if_pos h1]
      · intro h1 h2
        simp only [calculateOverallRisk]
        rw [if_neg (by simpa using h1), if_pos h2]
      · intro h1 h2 h3
        simp only [calculateOverallRisk]
        rw [if_neg (by simpa using h1), if_neg (by simpa using h2), if_pos h3]
      · intro h1 h2 h3
        simp only [calculateOverallRisk]
        rw [if_neg (by simpa using h1), if_neg (by simpa using h2),
          if_neg (by simpa using h3)]

/-- Witness for C3's amended theorem: scenario A yields `"high"`, and in
particular not `"unknown"`. -/
theorem riskLevel_unknown_iff_witness :
    (checkAllergens ["peanut oil"]
      { allergies := ["peanuts"], medications := [] }).riskLevel = "high" :=
  ((riskLevel_unknown_iff_no_allergies ["peanut oil"]
    { allergies := ["peanuts"], medications := [] }).2 (by decide)).1 (by decide)

/-- Claim C4, counterexample: `"levothyroxine"` resolves to a record
carrying a timing note, yet for the ingredient list `["water"]` (which
matches none of its avoid/caution terms) `check_interactions` emits no
timing recommendation — timing notes are only surfaced per matched
interaction. -/
theorem timing_absent_without_match :
    (checkInteractions ["water"]
      { allergies := [], medications := ["levothyroxine"] }).timingRecommendations = []
    ∧ levothyroxineRecord ∈ knownInteractions
    ∧ levothyroxineRecord.timing = some "take 30-60 minutes before eating"
    ∧ medResolves (pyStrip (pyLower "levothyroxine")) levothyroxineRecord = true :=
  ⟨rfl, by decide, rfl, rfl⟩

/-- Claim C4 (amended): a timing recommendation `(medication, note)` is in
the `check_interactions` result if and only if the medication is declared,
it resolves to a knowledge-base record carrying that non-empty timing
note, and at least one of the record's avoid or caution terms matches an
ingredient — each such matched interaction contributes the pair, and no
timing recommendation appears without a matched term. -/
theorem timing_requires_matched_interaction
    (ingredients : List String) (p : UserProfile) :
    (∀ med rec t item, med ∈ p.medications → rec ∈ knownInteractions →
      medResolves (pyStrip (pyLower med)) rec = true →
      rec.timing = some t → t ≠ "" →
      (item ∈ rec.avoid ∨ item ∈ rec.caution) →
      ingredientContains ingredients item = true →
      (med, t) ∈ (checkInteractions ingredients p).timingRecommendations)
    ∧ (∀ med t, (med, t) ∈ (checkInteractions ingredients p).timingRecommendations →
      med ∈ p.medications ∧ t ≠ ""
      ∧ ∃ rec ∈ knownInteractions,
          medResolves (pyStrip (pyLower med)) rec = true
          ∧ rec.timing = some t
          ∧ ∃ item, (item ∈ rec.avoid ∨ item ∈ rec.caution)
              ∧ ingredientContains ingredients item = true) := by
  constructor
  · intro med rec t item hmed hrec hres ht htne hitem hhit
    have hne : p.medications ≠ [] := by
      intro h0; rw [h0] at hmed; exact absurd hmed (List.not_mem_nil med)
    unfold checkInteractions
    rw [if_neg hne]
    show (med, t) ∈ (p.medications.map (fun m =>
        (checkSingleMedication m ingredients).filterMap (fun i =>
          if i.timing = "" then none else some (m, i.timing)))).flatten
    refine List.mem_flatten.mpr ⟨_, List.mem_map_of_mem _ hmed, ?_⟩
    rcases hitem with hav | hca
    · refine List.mem_filterMap.mpr ⟨mkAvoidInteraction med rec item,
        mkAvoid_mem_checkSingleMedication med ingredients rec item hrec hres hav hhit, ?_⟩
      have hti : (mkAvoidInteraction med rec item).timing = t := by
        unfold mkAvoidInteraction
        rw [ht]
        rfl
      rw [hti, if_neg htne]
    · refine List.mem_filterMap.mpr ⟨mkCautionInteraction med rec item,
        mkCaution_mem_checkSingleMedication med ingredients rec item hrec hres hca hhit, ?_⟩
      have hti : (mkCautionInteraction med rec item).timing = t := by
        unfold mkCautionInteraction
        rw [ht]
        rfl
      rw [hti, if_neg htne]
  · intro med t hmem
    by_cases hne : p.medications = []
    · exfalso
      unfold checkInteractions at hmem
      rw [if_pos hne] at hmem
      have hmem2 : (med, t) ∈ ([] : List (String × String)) := hmem
      exact absurd hmem2 (List.not_mem_nil (med, t))
    · unfold checkInteractions at hmem
      rw [if_neg hne] at hmem
      have hmem2 : (med, t) ∈ (p.medications.map (fun m =>
          (checkSingleMedication m ingredients).filterMap (fun i =>
            if i.timing = "" then none else some (m, i.timing)))).flatten := hmem
      obtain ⟨lst, hlst, hmt⟩ := List.mem_flatten.mp hmem2
      obtain ⟨m, hm, hbe⟩ := List.mem_map.mp hlst
      rw [← hbe] at hmt
      obtain ⟨i, hi, hgi⟩ := List.mem_filterMap.mp hmt
      have hgi2 : (if i.timing = "" then none else some (m, i.timing)) = some (med, t) := hgi
      by_cases h0 : i.timing = ""
      · rw [if_pos h0] at hgi2
        exact Option.noConfusion hgi2
      · rw [if_neg h0] at hgi2
        have hp := Option.some.inj hgi2
        have hm2 : m = med := congrArg Prod.fst hp
        have ht2 : i.timing = t := congrArg Prod.snd hp
        subst hm2
        refine ⟨hm, ht2 ▸ h0, ?_⟩
        obtain ⟨rec, hrec, hres, htm, item, hior, hhit⟩ :=
          timing_source_of_checkSingleMedication m ingredients i hi h0
        rw [ht2] at htm
        exact ⟨rec, hrec, hres, htm, item, hior, hhit⟩

/-- Witness for C4's amended theorem: levothyroxine plus the matching
avoid term "coffee", and plus the matching caution term
"iron supplements", each produce the timing recommendation. -/
theorem timing_requires_match_witness :
    ("levothyroxine", "take 30-60 minutes before eating")
      ∈ (checkInteractions ["coffee"]
          { allergies := [], medications := ["levothyroxine"] }).timingRecommendations
    ∧ ("levothyroxine", "take 30-60 minutes before eating")
      ∈ (checkInteractions ["iron supplements"]
          { allergies := [], medications := ["levothyroxine"] }).timingRecommendations :=
  ⟨(timing_requires_matched_interaction ["coffee"]
      { allergies := [], medications := ["levothyroxine"] }).1
      "levothyroxine" levothyroxineRecord "take 30-60 minutes before eating" "coffee"
      (by decide) (by decide) (by decide) rfl (by decide) (Or.inl (by decide)) (by decide),
   (timing_requires_matched_interaction ["iron supplements"]
      { allergies := [], medications := ["levothyroxine"] }).1
      "levothyroxine" levothyroxineRecord "take 30-60 minutes before eating" "iron supplements"
      (by decide) (by decide) (by decide) rfl (by decide) (Or.inr (by decide)) (by decide)⟩

/-- Claim C5: the parser is not idempotent.  `parse("1a") = ["a"]` (the
length check happens before the leading-digit strip), its canonical joined
form is `"a"`, and re-parsing drops the single-character token, yielding
`[]` instead of `["a"]`. -/
theorem parse_not_idempotent :
    parseIngredients "1a" = ["a"]
    ∧ joinTokens (parseIngredients "1a") = "a"
    ∧ parseIngredients (joinTokens (parseIngredients "1a")) = []
    ∧ parseIngredients (joinTokens (parseIngredients "1a")) ≠ parseIngredients "1a" :=
  ⟨rfl, rfl, rfl, by decide⟩

/-- Claim C6: an actual newline character does not act as a separator —
the source's separator list contains the two-character text backslash+n
(`'\\n'`), not the newline character, so a returned token can span a line
break of the raw text; the literal backslash+n text, by contrast, is
split on. -/
theorem parse_does_not_split_newline :
    parseIngredients "ab\ncd" = ["ab\ncd"]
    ∧ (parseIngredients "ab\ncd").any (fun t => t.data.contains '\n') = true
    ∧ parseIngredients "ab\\ncd" = ["ab", "cd"] :=
  ⟨rfl, rfl, rfl⟩

/-- Claim C7: the parser can return a token of length 1: the `len > 1`
check runs before the leading `[\d\.\-\s]*` strip, so `parse("-x")`
returns `["x"]`. -/
theorem parse_emits_length_one_token :
    parseIngredients "-x" = ["x"] ∧ ("x" : String).length = 1 :=
  ⟨rfl, rfl⟩

/-- Claim C8: for every medication resolving to a knowledge-base record,
every matched avoid term is reported as an `"avoid"` interaction with the
record's severity, and every matched caution term as a `"caution"`
interaction with severity one level below the record's (high → moderate,
moderate → low, low → low). -/
theorem medication_severity_mapping
    (medication : String) (ingredients : List String) (rec : MedRecord)
    (hrec : rec ∈ knownInteractions)
    (hres : medResolves (pyStrip (pyLower medication)) rec = true) :
    (∀ item, item ∈ rec.avoid → ingredientContains ingredients item = true →
      mkAvoidInteraction medication rec item ∈ checkSingleMedication medication ingredients
      ∧ (mkAvoidInteraction medication rec item).interactionType = "avoid"
      ∧ (mkAvoidInteraction medication rec item).severity = rec.severity)
    ∧ (∀ item, item ∈ rec.caution → ingredientContains ingredients item = true →
      mkCautionInteraction medication rec item ∈ checkSingleMedication medication ingredients
      ∧ (mkCautionInteraction medication rec item).interactionType = "caution"
      ∧ (rec.severity = "high" → (mkCautionInteraction medication rec item).severity = "moderate")
      ∧ (rec.severity = "moderate" → (mkCautionInteraction medication rec item).severity = "low")
      ∧ (rec.severity = "low" → (mkCautionInteraction medication rec item).severity = "low")) := by
  constructor
  · intro item hitem hhit
    exact ⟨mkAvoid_mem_checkSingleMedication medication ingredients rec item hrec hres hitem hhit,
      rfl, rfl⟩
  · intro item hitem hhit
    refine ⟨mkCaution_mem_checkSingleMedication medication ingredients rec item hrec hres hitem hhit,
      rfl, ?_, ?_, ?_⟩
    · intro h
      show (if rec.severity = "high" then "moderate" else "low") = "moderate"
      rw [if_pos h]
    · intro h
      show (if rec.severity = "high" then "moderate" else "low") = "low"
      rw [if_neg (by rw [h]; decide)]
    · intro h
      show (if rec.severity = "high" then "moderate" else "low") = "low"
      rw [if_neg (by rw [h]; decide)]

/-- Witness for C8 at warfarin: matched avoid term "spinach" is reported
`avoid`/`high`, matched caution term "grapefruit" is reported
`caution`/`moderate`. -/
theorem medication_severity_witness :
    mkAvoidInteraction "warfarin" warfarinRecord "spinach"
      ∈ checkSingleMedication "warfarin" ["spinach", "grapefruit"]
    ∧ (mkAvoidInteraction "warfarin" warfarinRecord "spinach").severity = "high"
    ∧ mkCautionInteraction "warfarin" warfarinRecord "grapefruit"
      ∈ checkSingleMedication "warfarin" ["spinach", "grapefruit"]
    ∧ (mkCautionInteraction "warfarin" warfarinRecord "grapefruit").severity = "moderate" := by
  have h := medication_severity_mapping "warfarin" ["spinach", "grapefruit"] warfarinRecord
    (by decide) (by decide)
  exact ⟨(h.1 "spinach" (by decide) (by decide)).1,
    (h.1 "spinach" (by decide) (by decide)).2.2,
    (h.2 "grapefruit" (by decide) (by decide)).1,
    (h.2 "grapefruit" (by decide) (by decide)).2.2.1 rfl⟩

/-- Claim C9, counterexample: for a profile without medications the early
return of `check_interactions` omits the `detailed_interactions` field
altogether, so the claimed equality with its length fails there. -/
theorem interactions_missing_detailed :
    ¬ medResultConsistent (checkInteractions ["water"] { allergies := [], medications := [] }) := by
  rintro ⟨l, hl, -⟩
  have h0 : (checkInteractions ["water"]
      { allergies := [], medications := [] }).detailedInteractions = none := rfl
  rw [h0] at hl
  exact Option.noConfusion hl

/-- Claim C9 (amended): for every profile with at least one declared
medication, the `check_interactions` result is internally consistent:
`total_interactions` equals the length of `detailed_interactions`, which
equals the sum of the three severity buckets' lengths, and
`interactions_found` holds exactly when the total is positive. -/
theorem interactions_consistent_with_medications
    (ingredients : List String) (p : UserProfile) (h : p.medications ≠ []) :
    medResultConsistent (checkInteractions ingredients p) := by
  unfold checkInteractions
  rw [if_neg h]
  refine ⟨(p.medications.map (fun med => checkSingleMedication med ingredients)).flatten,
    rfl, rfl, ?_, ?_⟩
  · exact sevFilterPartition _
  · simp

/-- Witness for C9's amended theorem at a concrete profile. -/
theorem interactions_consistent_witness :
    medResultConsistent (checkInteractions [] { allergies := [], medications := ["aspirin"] }) :=
  interactions_consistent_with_medications [] { allergies := [], medications := ["aspirin"] }
    (by decide)

/-- Claim C10: `add_allergy` is case-insensitively idempotent — an allergy
equal (up to lower-casing) to an existing entry leaves the list unchanged;
a new non-empty allergy is appended verbatim; and the no-case-duplicate
invariant is preserved. -/
theorem addAllergy_case_idempotent (a : String) (l : List String) :
    ((∃ b ∈ l, pyLower b = pyLower a) → addAllergy a l = l)
    ∧ (a ≠ "" → (∀ b ∈ l, pyLower b ≠ pyLower a) → addAllergy a l = l ++ [a])
    ∧ ((l.map pyLower).Nodup → ((addAllergy a l).map pyLower).Nodup) := by
  refine ⟨?_, ?_, ?_⟩
  · rintro ⟨b, hb, he⟩
    unfold addAllergy
    rw [if_neg]
    rintro ⟨-, hnot⟩
    exact hnot (he ▸ List.mem_map_of_mem pyLower hb)
  · intro ha hall
    unfold addAllergy
    rw [if_pos]
    refine ⟨ha, fun hmem => ?_⟩
    obtain ⟨b, hb, he⟩ := List.mem_map.mp hmem
    exact hall b hb he
  · intro hnd
    unfold addAllergy
    split
    · rename_i hc
      rw [List.map_append, List.nodup_append]
      refine ⟨hnd, by simp, ?_⟩
      intro x hx hx1
      simp only [List.map_cons, List.map_nil, List.mem_singleton] at hx1
      rw [hx1] at hx
      exact hc.2 hx
    · exact hnd

/-- Witness for C10: "Milk" is already present up to case and is not
re-added; "egg" is new and is appended. -/
theorem addAllergy_witness :
    addAllergy "Milk" ["milk", "soy"] = ["milk", "soy"]
    ∧ addAllergy "egg" ["milk", "soy"] = ["milk", "soy", "egg"] :=
  ⟨(addAllergy_case_idempotent "Milk" ["milk", "soy"]).1 ⟨"milk", by decide, by decide⟩,
   (addAllergy_case_idempotent "egg" ["milk", "soy"]).2.1 (by decide) (by decide)⟩
